import Mathlib

/-!
Verification of the environment-configuration loader (`src/config.ts`) and the
two utility functions `add` and `isValidEmail` (`src/utils.ts`, shown in
`SETUP_GUIDE.md`) of the starter-template repository.

The JavaScript sources are shallowly embedded:
* the environment mapping `process.env` becomes a function `String → Option String`;
* a JavaScript number produced by `parseInt` is either an integer or `NaN`,
  modelled by the type `JsNumber`;
* the truthiness fallback `x || d` on string-or-undefined values becomes
  `orDefault` (the empty string is falsy in JavaScript);
* the regex test `/^[^\s@]+@[^\s@]+\.[^\s@]+$/.test(email)` becomes a
  derivative-based matcher `rmatch` run on the regex AST `emailRegex`.
-/

namespace ConfigCore

/-- A JavaScript number as produced by `parseInt(s, 10)`: either `NaN`
(no digits could be parsed) or an integer value. -/
inductive JsNumber where
  | nan : JsNumber
  | num : Int → JsNumber
deriving DecidableEq, Repr

/-- The JavaScript whitespace set: the characters matched by the regex class
`\s`, which is also the set trimmed by `parseInt` (ECMAScript WhiteSpace and
LineTerminator code points). -/
def isJsWhitespace (c : Char) : Bool :=
  c.toNat == 0x09 || c.toNat == 0x0A || c.toNat == 0x0B || c.toNat == 0x0C ||
  c.toNat == 0x0D || c.toNat == 0x20 || c.toNat == 0xA0 || c.toNat == 0x1680 ||
  (0x2000 ≤ c.toNat && c.toNat ≤ 0x200A) || c.toNat == 0x2028 ||
  c.toNat == 0x2029 || c.toNat == 0x202F || c.toNat == 0x205F ||
  c.toNat == 0x3000 || c.toNat == 0xFEFF

/-- Numeric value of a list of decimal digits, most significant first. -/
def digitsToNat (ds : List Char) : Nat :=
  ds.foldl (fun acc c => 10 * acc + (c.toNat - 48)) 0

/-- After whitespace and an optional sign have been consumed, `parseInt`
takes the longest prefix of decimal digits; no digit at all means `NaN`. -/
def parseDigits (neg : Bool) (cs : List Char) : JsNumber :=
  match cs.takeWhile (fun c => c.isDigit) with
  | [] => JsNumber.nan
  | ds => JsNumber.num (if neg then -(digitsToNat ds : Int) else (digitsToNat ds : Int))

/-- JavaScript `parseInt(s, 10)`: skip leading whitespace, read an optional
sign, then the longest run of decimal digits; return `NaN` when that run is
empty, and otherwise the signed value of the digits. -/
def parseInt10 (s : String) : JsNumber :=
  match s.data.dropWhile isJsWhitespace with
  | '-' :: rest => parseDigits true rest
  | '+' :: rest => parseDigits false rest
  | cs => parseDigits false cs

/-- The configuration snapshot built in `src/config.ts`: field names follow
the source (`nodeEnv`, `port`, `databaseUrl`, `redisUrl`). -/
structure ConfigurationSnapshot where
  nodeEnv : String
  port : JsNumber
  databaseUrl : Option String
  redisUrl : Option String
deriving DecidableEq, Repr

/-- JavaScript `v || d` where `v` is a string or `undefined`: `undefined`
and the empty string are falsy and yield the default `d`. -/
def orDefault (v : Option String) (d : String) : String :=
  match v with
  | none => d
  | some s => if s = "" then d else s

/-- The `config` object of `src/config.ts`, as a function of the
environment mapping it reads:
`nodeEnv = process.env.NODE_ENV || "development"`,
`port = parseInt(process.env.PORT || "3000", 10)`,
`databaseUrl = process.env.DATABASE_URL`, `redisUrl = process.env.REDIS_URL`. -/
def buildConfiguration (env : String → Option String) : ConfigurationSnapshot :=
  { nodeEnv := orDefault (env "NODE_ENV") "development"
  , port := parseInt10 (orDefault (env "PORT") "3000")
  , databaseUrl := env "DATABASE_URL"
  , redisUrl := env "REDIS_URL" }

/-- `add` from `src/utils.ts`: `return a + b`. The host numeric type is
taken at its integer fragment, on which JavaScript addition is exact. -/
def add (a b : Int) : Int := a + b

/-- Regular expressions over `Char`, with character classes (`cls`) as
primitive so that the classes `[^\s@]`, `@` and `\.` of the source regex can
be written directly. -/
inductive Regex where
  | fail : Regex
  | eps : Regex
  | cls (p : Char → Bool) : Regex
  | cat (r₁ r₂ : Regex) : Regex
  | alt (r₁ r₂ : Regex) : Regex
  | star (r : Regex) : Regex

/-- Declarative matching semantics of a regular expression. -/
inductive RMatch : Regex → List Char → Prop where
  | eps : RMatch Regex.eps []
  | cls {p : Char → Bool} {c : Char} : p c = true → RMatch (Regex.cls p) [c]
  | cat {r₁ r₂ : Regex} {s₁ s₂ : List Char} :
      RMatch r₁ s₁ → RMatch r₂ s₂ → RMatch (Regex.cat r₁ r₂) (s₁ ++ s₂)
  | altL {r₁ r₂ : Regex} {s : List Char} : RMatch r₁ s → RMatch (Regex.alt r₁ r₂) s
  | altR {r₁ r₂ : Regex} {s : List Char} : RMatch r₂ s → RMatch (Regex.alt r₁ r₂) s
  | starNil {r : Regex} : RMatch (Regex.star r) []
  | starCons {r : Regex} {s₁ s₂ : List Char} :
      RMatch r s₁ → RMatch (Regex.star r) s₂ → RMatch (Regex.star r) (s₁ ++ s₂)

/-- Does the regular expression accept the empty string? -/
def Regex.nullable : Regex → Bool
  | .fail => false
  | .eps => true
  | .cls _ => false
  | .cat r₁ r₂ => r₁.nullable && r₂.nullable
  | .alt r₁ r₂ => r₁.nullable || r₂.nullable
  | .star _ => true

/-- Brzozowski derivative of a regular expression by a character. -/
def Regex.deriv : Regex → Char → Regex
  | .fail, _ => .fail
  | .eps, _ => .fail
  | .cls p, a => if p a then .eps else .fail
  | .cat r₁ r₂, a =>
      if r₁.nullable then .alt (.cat (r₁.deriv a) r₂) (r₂.deriv a)
      else .cat (r₁.deriv a) r₂
  | .alt r₁ r₂, a => .alt (r₁.deriv a) (r₂.deriv a)
  | .star r, a => .cat (r.deriv a) (.star r)

/-- The derivative-based matcher: consume the string character by character
and test nullability of the residual expression. -/
def rmatch (r : Regex) (s : List Char) : Bool :=
  (s.foldl Regex.deriv r).nullable

/-- One-or-more repetition, `r+`, desugared as `r · r*`. -/
def Regex.plus (r : Regex) : Regex := Regex.cat r (Regex.star r)

/-- The character class `[^\s@]` of the source regex: anything that is
neither JavaScript whitespace nor `@`. -/
def emailChar (c : Char) : Bool := !(isJsWhitespace c || c == '@')

/-- The AST of the source regex `/^[^\s@]+@[^\s@]+\.[^\s@]+$/` (the anchors
are implicit: `rmatch` tests the whole string). -/
def emailRegex : Regex :=
  Regex.cat (Regex.plus (Regex.cls emailChar))
    (Regex.cat (Regex.cls (fun c => c == '@'))
      (Regex.cat (Regex.plus (Regex.cls emailChar))
        (Regex.cat (Regex.cls (fun c => c == '.'))
          (Regex.plus (Regex.cls emailChar)))))

/-- `isValidEmail` from `src/utils.ts`:
`const emailRegex = /^[^\s@]+@[^\s@]+\.[^\s@]+$/; return emailRegex.test(email)`. -/
def isValidEmail (email : String) : Bool := rmatch emailRegex email.data

/-- The shape stated by the specification for `isValidEmail`: one or more
characters that are neither whitespace nor `@`, then exactly one `@`, then
one or more such characters, then a literal dot, then one or more such
characters.  Stated as an existential decomposition of the string. -/
def EmailShape (s : String) : Prop :=
  ∃ a b c : List Char,
    s.data = a ++ '@' :: (b ++ '.' :: c) ∧
    a ≠ [] ∧ b ≠ [] ∧ c ≠ [] ∧
    (∀ x ∈ a, isJsWhitespace x = false ∧ x ≠ '@') ∧
    (∀ x ∈ b, isJsWhitespace x = false ∧ x ≠ '@') ∧
    (∀ x ∈ c, isJsWhitespace x = false ∧ x ≠ '@')

/-- The empty environment mapping. -/
def envEmpty : String → Option String := fun _ => none

/-- The environment mapping `{PORT: "abc"}`. -/
def envPortAbc : String → Option String :=
  fun k => if k = "PORT" then some "abc" else none

/-- The environment mapping `{PORT: ""}`. -/
def envPortEmpty : String → Option String :=
  fun k => if k = "PORT" then some "" else none

/-- The environment mapping `{PORT: "abc", HOME: "/root"}`: like `envPortAbc`
but with an extra, unrelated variable bound. -/
def envPortAbcExtra : String → Option String :=
  fun k => if k = "HOME" then some "/root"
    else if k = "PORT" then some "abc" else none

/-- The environment mapping `{PORT: "8080", NODE_ENV: "production"}`. -/
def envProd : String → Option String :=
  fun k => if k = "PORT" then some "8080"
    else if k = "NODE_ENV" then some "production" else none

theorem rmatch_nil_of_nullable : ∀ {r : Regex}, r.nullable = true → RMatch r [] := by
  intro r
  induction r with
  | fail => intro h; simp [Regex.nullable] at h
  | eps => intro _; exact RMatch.eps
  | cls p => intro h; simp [Regex.nullable] at h
  | cat r₁ r₂ ih₁ ih₂ =>
      intro h
      simp [Regex.nullable] at h
      exact RMatch.cat (ih₁ h.1) (ih₂ h.2)
  | alt r₁ r₂ ih₁ ih₂ =>
      intro h
      simp [Regex.nullable] at h
      cases h with
      | inl h => exact RMatch.altL (ih₁ h)
      | inr h => exact RMatch.altR (ih₂ h)
  | star r ih => intro _; exact RMatch.starNil

theorem nullable_of_rmatch_nil {r : Regex} {s : List Char} (h : RMatch r s) (hs : s = []) :
    r.nullable = true := by
  induction h with
  | eps => rfl
  | cls _ => exact absurd hs (by simp)
  | cat h₁ h₂ ih₁ ih₂ =>
      rcases List.append_eq_nil.mp hs with ⟨h1, h2⟩
      simp [Regex.nullable, ih₁ h1, ih₂ h2]
  | altL h ih => simp [Regex.nullable, ih hs]
  | altR h ih => simp [Regex.nullable, ih hs]
  | starNil => rfl
  | starCons h₁ h₂ ih₁ ih₂ => rfl

theorem deriv_cls_pos {p : Char → Bool} {a : Char} (hp : p a = true) :
    (Regex.cls p).deriv a = Regex.eps := by
  simp [Regex.deriv, hp]

theorem deriv_cls_neg {p : Char → Bool} {a : Char} (hp : p a = false) :
    (Regex.cls p).deriv a = Regex.fail := by
  simp [Regex.deriv, hp]

theorem deriv_cat_pos {r₁ r₂ : Regex} {a : Char} (hn : r₁.nullable = true) :
    (Regex.cat r₁ r₂).deriv a = Regex.alt (Regex.cat (r₁.deriv a) r₂) (r₂.deriv a) := by
  simp [Regex.deriv, hn]

theorem deriv_cat_neg {r₁ r₂ : Regex} {a : Char} (hn : r₁.nullable = false) :
    (Regex.cat r₁ r₂).deriv a = Regex.cat (r₁.deriv a) r₂ := by
  simp [Regex.deriv, hn]

theorem deriv_alt {r₁ r₂ : Regex} {a : Char} :
    (Regex.alt r₁ r₂).deriv a = Regex.alt (r₁.deriv a) (r₂.deriv a) := rfl

theorem deriv_star {r : Regex} {a : Char} :
    (Regex.star r).deriv a = Regex.cat (r.deriv a) (Regex.star r) := rfl

theorem deriv_sound {r : Regex} {a : Char} {s : List Char}
    (h : RMatch (r.deriv a) s) : RMatch r (a :: s) := by
  induction r generalizing s with
  | fail => cases h
  | eps => cases h
  | cls p =>
      cases hp : p a with
      | true =>
          rw [deriv_cls_pos hp] at h
          cases h
          exact RMatch.cls hp
      | false =>
          rw [deriv_cls_neg hp] at h
          cases h
  | cat r₁ r₂ ih₁ ih₂ =>
      cases hn : r₁.nullable with
      | true =>
          rw [deriv_cat_pos hn] at h
          cases h with
          | altL h₀ =>
              cases h₀ with
              | cat h₁ h₂ => exact RMatch.cat (ih₁ h₁) h₂
          | altR h₀ =>
              exact RMatch.cat (rmatch_nil_of_nullable hn) (ih₂ h₀)
      | false =>
          rw [deriv_cat_neg hn] at h
          cases h with
          | cat h₁ h₂ => exact RMatch.cat (ih₁ h₁) h₂
  | alt r₁ r₂ ih₁ ih₂ =>
      rw [deriv_alt] at h
      cases h with
      | altL h₀ => exact RMatch.altL (ih₁ h₀)
      | altR h₀ => exact RMatch.altR (ih₂ h₀)
  | star r ih =>
      rw [deriv_star] at h
      cases h with
      | cat h₁ h₂ => exact RMatch.starCons (ih h₁) h₂

theorem deriv_complete {r : Regex} {s : List Char} (h : RMatch r s) :
    ∀ {a : Char} {t : List Char}, s = a :: t → RMatch (r.deriv a) t := by
  induction h with
  | eps => intro a t ht; cases ht
  | @cls p c hp =>
      intro a t ht
      cases ht
      rw [deriv_cls_pos hp]
      exact RMatch.eps
  | @cat r₁ r₂ s₁ s₂ h₁ h₂ ih₁ ih₂ =>
      intro a t ht
      cases s₁ with
      | nil =>
          rw [List.nil_append] at ht
          rw [deriv_cat_pos (nullable_of_rmatch_nil h₁ rfl)]
          exact RMatch.altR (ih₂ ht)
      | cons b s₁' =>
          rw [List.cons_append] at ht
          cases ht
          cases hn : r₁.nullable with
          | true =>
              rw [deriv_cat_pos hn]
              exact RMatch.altL (RMatch.cat (ih₁ rfl) h₂)
          | false =>
              rw [deriv_cat_neg hn]
              exact RMatch.cat (ih₁ rfl) h₂
  | altL h ih =>
      intro a t ht
      rw [deriv_alt]
      exact RMatch.altL (ih ht)
  | altR h ih =>
      intro a t ht
      rw [deriv_alt]
      exact RMatch.altR (ih ht)
  | starNil => intro a t ht; cases ht
  | @starCons r s₁ s₂ h₁ h₂ ih₁ ih₂ =>
      intro a t ht
      cases s₁ with
      | nil =>
          rw [List.nil_append] at ht
          exact ih₂ ht
      | cons b s₁' =>
          rw [List.cons_append] at ht
          cases ht
          rw [deriv_star]
          exact RMatch.cat (ih₁ rfl) h₂

theorem rmatch_iff {r : Regex} {s : List Char} : rmatch r s = true ↔ RMatch r s := by
  induction s generalizing r with
  | nil =>
      constructor
      · intro h; exact rmatch_nil_of_nullable h
      · intro h; exact nullable_of_rmatch_nil h rfl
  | cons a t ih =>
      have he : rmatch r (a :: t) = rmatch (r.deriv a) t := rfl
      rw [he, ih]
      constructor
      · intro h; exact deriv_sound h
      · intro h; exact deriv_complete h rfl

theorem rmatch_cls_iff {p : Char → Bool} {s : List Char} :
    RMatch (Regex.cls p) s ↔ ∃ c, s = [c] ∧ p c = true := by
  constructor
  · intro h
    cases h with
    | cls hp => exact ⟨_, rfl, hp⟩
  · rintro ⟨c, rfl, hp⟩
    exact RMatch.cls hp

theorem star_cls_all {p : Char → Bool} {r : Regex} {s : List Char} (h : RMatch r s)
    (he : r = Regex.star (Regex.cls p)) : ∀ c ∈ s, p c = true := by
  induction h with
  | eps => cases he
  | cls _ => cases he
  | cat _ _ _ _ => cases he
  | altL _ _ => cases he
  | altR _ _ => cases he
  | starNil => intro c hc; cases hc
  | @starCons r s₁ s₂ h₁ h₂ ih₁ ih₂ =>
      intro c hc
      injection he with he'
      subst he'
      rcases List.mem_append.mp hc with hc | hc
      · cases h₁ with
        | cls hp =>
            rw [List.mem_singleton] at hc
            subst hc
            exact hp
      · exact ih₂ rfl c hc

theorem rmatch_star_cls_iff {p : Char → Bool} {s : List Char} :
    RMatch (Regex.star (Regex.cls p)) s ↔ ∀ c ∈ s, p c = true := by
  constructor
  · intro h; exact star_cls_all h rfl
  · intro h
    induction s with
    | nil => exact RMatch.starNil
    | cons c t ih =>
        exact RMatch.starCons (RMatch.cls (h c (List.mem_cons_self c t)))
          (ih fun x hx => h x (List.mem_cons_of_mem c hx))

theorem rmatch_plus_cls_iff {p : Char → Bool} {s : List Char} :
    RMatch ((Regex.cls p).plus) s ↔ s ≠ [] ∧ ∀ c ∈ s, p c = true := by
  constructor
  · intro h
    cases h with
    | cat h₁ h₂ =>
        rcases rmatch_cls_iff.mp h₁ with ⟨c, rfl, hp⟩
        have hall := rmatch_star_cls_iff.mp h₂
        refine ⟨by simp, ?_⟩
        intro x hx
        rcases List.mem_append.mp hx with hx | hx
        · rw [List.mem_singleton] at hx; subst hx; exact hp
        · exact hall x hx
  · rintro ⟨hne, hall⟩
    cases s with
    | nil => exact absurd rfl hne
    | cons c t =>
        exact RMatch.cat (RMatch.cls (hall c (List.mem_cons_self c t)))
          (rmatch_star_cls_iff.mpr fun x hx => hall x (List.mem_cons_of_mem c hx))

theorem rmatch_email_iff {s : List Char} :
    RMatch emailRegex s ↔
      ∃ a b c : List Char, s = a ++ '@' :: (b ++ '.' :: c) ∧
        a ≠ [] ∧ b ≠ [] ∧ c ≠ [] ∧
        (∀ x ∈ a, emailChar x = true) ∧ (∀ x ∈ b, emailChar x = true) ∧
        (∀ x ∈ c, emailChar x = true) := by
  constructor
  · intro h
    cases h with
    | cat hA hrest1 =>
        obtain ⟨hane, haall⟩ := rmatch_plus_cls_iff.mp hA
        cases hrest1 with
        | cat hat hrest2 =>
            obtain ⟨ca, rfl, hca⟩ := rmatch_cls_iff.mp hat
            cases hrest2 with
            | cat hB hrest3 =>
                obtain ⟨hbne, hball⟩ := rmatch_plus_cls_iff.mp hB
                cases hrest3 with
                | cat hdot hC =>
                    obtain ⟨cd, rfl, hcd⟩ := rmatch_cls_iff.mp hdot
                    obtain ⟨hcne, hcall⟩ := rmatch_plus_cls_iff.mp hC
                    have h1 : ca = '@' := by simpa using hca
                    have h2 : cd = '.' := by simpa using hcd
                    subst h1
                    subst h2
                    exact ⟨_, _, _, rfl, hane, hbne, hcne, haall, hball, hcall⟩
  · rintro ⟨a, b, c, rfl, hane, hbne, hcne, ha, hb, hc⟩
    have hA : RMatch ((Regex.cls emailChar).plus) a := rmatch_plus_cls_iff.mpr ⟨hane, ha⟩
    have hB : RMatch ((Regex.cls emailChar).plus) b := rmatch_plus_cls_iff.mpr ⟨hbne, hb⟩
    have hC : RMatch ((Regex.cls emailChar).plus) c := rmatch_plus_cls_iff.mpr ⟨hcne, hc⟩
    have hAt : RMatch (Regex.cls (fun x => x == '@')) ['@'] := RMatch.cls (by simp)
    have hDot : RMatch (Regex.cls (fun x => x == '.')) ['.'] := RMatch.cls (by simp)
    exact RMatch.cat hA (RMatch.cat hAt (RMatch.cat hB (RMatch.cat hDot hC)))

theorem emailChar_iff {c : Char} :
    emailChar c = true ↔ isJsWhitespace c = false ∧ c ≠ '@' := by
  simp [emailChar]

theorem isValidEmail_iff (s : String) : isValidEmail s = true ↔ EmailShape s := by
  have he : isValidEmail s = rmatch emailRegex s.data := rfl
  rw [he, rmatch_iff, rmatch_email_iff, EmailShape]
  constructor
  · rintro ⟨a, b, c, hs, hane, hbne, hcne, ha, hb, hc⟩
    exact ⟨a, b, c, hs, hane, hbne, hcne,
      fun x hx => emailChar_iff.mp (ha x hx),
      fun x hx => emailChar_iff.mp (hb x hx),
      fun x hx => emailChar_iff.mp (hc x hx)⟩
  · rintro ⟨a, b, c, hs, hane, hbne, hcne, ha, hb, hc⟩
    exact ⟨a, b, c, hs, hane, hbne, hcne,
      fun x hx => emailChar_iff.mpr (ha x hx),
      fun x hx => emailChar_iff.mpr (hb x hx),
      fun x hx => emailChar_iff.mpr (hc x hx)⟩

theorem orDefault_of_missing {v : Option String} {d : String}
    (h : v = none ∨ v = some "") : orDefault v d = d := by
  rcases h with h | h <;> simp [orDefault, h]

theorem orDefault_of_present {v : Option String} {d s : String}
    (hv : v = some s) (hne : s ≠ "") : orDefault v d = s := by
  rw [hv]
  simp [orDefault, hne]

theorem parseInt10_default : parseInt10 "3000" = JsNumber.num 3000 := by decide

/-- Claim C1, counterexample: on the mapping with key PORT bound to the string
abc, the snapshot's port is NaN, not the claimed default 3000. -/
theorem C1_counterexample :
    (buildConfiguration envPortAbc).port ≠ JsNumber.num 3000 ∧
    (buildConfiguration envPortAbc).port = JsNumber.nan := by decide

/-- Claim C1, amended: the port falls back to 3000 only when PORT is absent or
bound to the empty string; when PORT is present and non-empty, port is the
result of parsing that value, which is NaN when no digits can be read. -/
theorem C1_port_default_amended :
    ∀ env : String → Option String,
    ((env "PORT" = none ∨ env "PORT" = some "") →
      (buildConfiguration env).port = JsNumber.num 3000) ∧
    (∀ s, env "PORT" = some s → s ≠ "" →
      (buildConfiguration env).port = parseInt10 s) := by
  intro env
  constructor
  · intro h
    show parseInt10 (orDefault (env "PORT") "3000") = JsNumber.num 3000
    rw [orDefault_of_missing h]
    exact parseInt10_default
  · intro s hs hne
    show parseInt10 (orDefault (env "PORT") "3000") = parseInt10 s
    rw [orDefault_of_present hs hne]

/-- Claim C1, witness for the amended statement at the empty mapping and at
the mapping binding PORT to abc. -/
theorem C1_witness :
    (buildConfiguration envEmpty).port = JsNumber.num 3000 ∧
    (buildConfiguration envPortAbc).port = parseInt10 "abc" :=
  ⟨(C1_port_default_amended envEmpty).1 (Or.inl rfl),
   (C1_port_default_amended envPortAbc).2 "abc" (by decide) (by decide)⟩

/-- Claim C2: a present, non-empty, unparseable PORT (such as abc) makes the
snapshot's port NaN — never equal to any integer, in particular not 3000 —
because only an absent or empty PORT falls back to the default string, while
a present non-empty PORT is handed to the parser unchanged. -/
theorem C2_port_nan :
    (buildConfiguration envPortAbc).port = JsNumber.nan ∧
    (∀ n : Int, (buildConfiguration envPortAbc).port ≠ JsNumber.num n) ∧
    (buildConfiguration envEmpty).port = JsNumber.num 3000 ∧
    (buildConfiguration envPortEmpty).port = JsNumber.num 3000 ∧
    (∀ (env : String → Option String) (s : String), env "PORT" = some s → s ≠ "" →
      (buildConfiguration env).port = parseInt10 s) := by
  refine ⟨by decide, ?_, by decide, by decide, ?_⟩
  · intro n h
    have hnan : (buildConfiguration envPortAbc).port = JsNumber.nan := by decide
    rw [hnan] at h
    cases h
  · intro env s hs hne
    show parseInt10 (orDefault (env "PORT") "3000") = parseInt10 s
    rw [orDefault_of_present hs hne]

/-- Claim C2, witness: the general propagation conjunct applied at the
mapping binding PORT to abc. -/
theorem C2_witness : (buildConfiguration envPortAbc).port = parseInt10 "abc" :=
  C2_port_nan.2.2.2.2 envPortAbc "abc" (by decide) (by decide)

/-- Claim C3: isValidEmail accepts exactly the strings of the shape
nonempty-run, at-sign, nonempty-run, dot, nonempty-run, where each run
contains neither whitespace nor an at-sign; together with the five
concrete examples of the specification. -/
theorem C3_isValidEmail_spec :
    (∀ s : String, isValidEmail s = true ↔ EmailShape s) ∧
    isValidEmail "test@example.com" = true ∧
    isValidEmail "invalid-email" = false ∧
    isValidEmail "" = false ∧
    isValidEmail "a@b.c" = true ∧
    isValidEmail "a@b" = false :=
  ⟨isValidEmail_iff, by decide, by decide, by decide, by decide, by decide⟩

/-- Claim C4, counterexample: malformed configuration input does not always
resolve to a documented default — PORT bound to abc yields NaN, which is not
the documented default 3000. -/
theorem C4_counterexample :
    (buildConfiguration envPortAbc).port = JsNumber.nan ∧
    JsNumber.nan ≠ JsNumber.num 3000 := by decide

/-- Claim C4, amended: all three operations are total — every environment
mapping yields a snapshot, addition and email validation always return a
value — and missing configuration input resolves to the documented default
or stays absent; but a present, non-empty, unparseable PORT yields NaN
rather than the default. -/
theorem C4_totality_amended :
    ∀ (env : String → Option String) (a b : Int) (s : String),
    ((env "NODE_ENV" = none ∨ env "NODE_ENV" = some "") →
      (buildConfiguration env).nodeEnv = "development") ∧
    ((env "PORT" = none ∨ env "PORT" = some "") →
      (buildConfiguration env).port = JsNumber.num 3000) ∧
    (buildConfiguration env).databaseUrl = env "DATABASE_URL" ∧
    (buildConfiguration env).redisUrl = env "REDIS_URL" ∧
    add a b = a + b ∧
    (isValidEmail s = true ∨ isValidEmail s = false) ∧
    (buildConfiguration envPortAbc).port = JsNumber.nan := by
  intro env a b s
  refine ⟨?_, ?_, rfl, rfl, rfl, ?_, by decide⟩
  · intro h
    show orDefault (env "NODE_ENV") "development" = "development"
    exact orDefault_of_missing h
  · intro h
    show parseInt10 (orDefault (env "PORT") "3000") = JsNumber.num 3000
    rw [orDefault_of_missing h]
    exact parseInt10_default
  · cases he : isValidEmail s with
    | false => exact Or.inr rfl
    | true => exact Or.inl rfl

/-- Claim C4, witness for the amended statement at the empty mapping. -/
theorem C4_witness :
    (buildConfiguration envEmpty).nodeEnv = "development" ∧
    (buildConfiguration envEmpty).port = JsNumber.num 3000 ∧
    add 2 3 = 2 + 3 :=
  ⟨(C4_totality_amended envEmpty 2 3 "a@b.c").1 (Or.inl rfl),
   (C4_totality_amended envEmpty 2 3 "a@b.c").2.1 (Or.inl rfl),
   (C4_totality_amended envEmpty 2 3 "a@b.c").2.2.2.2.1⟩

/-- Claim C5: the snapshot's environment mode is the value of NODE_ENV when
that key is present and non-empty, and the literal development otherwise. -/
theorem C5_environmentMode :
    ∀ env : String → Option String,
    ((env "NODE_ENV" = none ∨ env "NODE_ENV" = some "") →
      (buildConfiguration env).nodeEnv = "development") ∧
    (∀ s, env "NODE_ENV" = some s → s ≠ "" →
      (buildConfiguration env).nodeEnv = s) := by
  intro env
  constructor
  · intro h
    show orDefault (env "NODE_ENV") "development" = "development"
    exact orDefault_of_missing h
  · intro s hs hne
    show orDefault (env "NODE_ENV") "development" = s
    exact orDefault_of_present hs hne

/-- Claim C5, witness at the empty mapping and at a mapping binding NODE_ENV
to production. -/
theorem C5_witness :
    (buildConfiguration envEmpty).nodeEnv = "development" ∧
    (buildConfiguration envProd).nodeEnv = "production" :=
  ⟨(C5_environmentMode envEmpty).1 (Or.inl rfl),
   (C5_environmentMode envProd).2 "production" (by decide) (by decide)⟩

/-- Claim C6: the two connection-string fields are the raw values of
DATABASE_URL and REDIS_URL — present exactly when the key is present, and
never transformed. -/
theorem C6_connection_strings :
    ∀ env : String → Option String,
    (buildConfiguration env).databaseUrl = env "DATABASE_URL" ∧
    (buildConfiguration env).redisUrl = env "REDIS_URL" :=
  fun _ => ⟨rfl, rfl⟩

/-- Claim C7: the empty environment mapping yields the all-defaults
snapshot. -/
theorem C7_empty_env_defaults :
    buildConfiguration envEmpty =
      { nodeEnv := "development", port := JsNumber.num 3000,
        databaseUrl := none, redisUrl := none } := by decide

/-- Claim C8: add is exact integer addition, commutative, associative, with
identity 0, and satisfies the two concrete test cases. -/
theorem C8_add_algebra :
    (∀ a b : Int, add a b = a + b) ∧
    (∀ a b : Int, add a b = add b a) ∧
    (∀ a b c : Int, add (add a b) c = add a (add b c)) ∧
    (∀ a : Int, add a 0 = a) ∧
    add 2 3 = 5 ∧ add (-1) 1 = 0 :=
  ⟨fun _ _ => rfl, fun a b => Int.add_comm a b, fun a b c => Int.add_assoc a b c,
   fun a => Int.add_zero a, by decide, by decide⟩

/-- Claim C9: building the configuration is deterministic and idempotent —
the same mapping always yields the same snapshot, and mappings that agree on
every key yield equal snapshots. -/
theorem C9_idempotent :
    ∀ env : String → Option String,
    buildConfiguration env = buildConfiguration env ∧
    (∀ env₂ : String → Option String, (∀ k, env k = env₂ k) →
      buildConfiguration env = buildConfiguration env₂) := by
  intro env
  refine ⟨rfl, ?_⟩
  intro env₂ h
  rw [funext h]

/-- Claim C9, witness: the empty mapping against a pointwise-equal copy. -/
theorem C9_witness :
    buildConfiguration envEmpty =
      buildConfiguration (fun k => if k = "HOME" then none else none) :=
  (C9_idempotent envEmpty).2 (fun k => if k = "HOME" then none else none)
    (fun _ => (ite_self none).symm)

/-- Claim C10: no key other than NODE_ENV, PORT, DATABASE_URL and REDIS_URL
influences the snapshot — mappings agreeing on those four keys yield equal
snapshots. -/
theorem C10_noninterference :
    ∀ env₁ env₂ : String → Option String,
    env₁ "NODE_ENV" = env₂ "NODE_ENV" → env₁ "PORT" = env₂ "PORT" →
    env₁ "DATABASE_URL" = env₂ "DATABASE_URL" → env₁ "REDIS_URL" = env₂ "REDIS_URL" →
    buildConfiguration env₁ = buildConfiguration env₂ := by
  intro env₁ env₂ h1 h2 h3 h4
  simp [buildConfiguration, h1, h2, h3, h4]

/-- Claim C10, witness: binding an unrelated key HOME changes nothing. -/
theorem C10_witness :
    buildConfiguration envPortAbc = buildConfiguration envPortAbcExtra :=
  C10_noninterference envPortAbc envPortAbcExtra
    (by decide) (by decide) (by decide) (by decide)

end ConfigCore
